import Mathlib

/-!
Verification of the sprite/icon registry of external-svg-sprite-loader.

The repository ships one source file, `src/index.js` (the webpack loader).
The registry core it drives (`lib/SvgStorePlugin`, `Sprite`, `Icon`,
`SvgDocument`) is required from `./lib` and is not part of the sources,
so those components are modelled from the specification; the loader
pipeline itself (option merging, optimize-then-name, icon registration,
emitted-module assembly with the cache-bust block) is translated from
`src/index.js`.
-/

set_option autoImplicit false

/-- Error taxonomy of the core (spec section 7): malformed markup passed to
`addIcon` is a `parseError`; two distinct source paths mapped to the same
symbol id within one sprite is a `namingConflict`. -/
inductive SpriteError where
  | parseError
  | namingConflict
deriving DecidableEq

/-- Modelled from the spec: the optimized SVG markup bytes handed to
`Sprite.addIcon` (the parser lives in `lib/SvgDocument`, which is not in the
sources). A markup value abstracts the byte string: it is either structurally
invalid, or a well-formed SVG carrying an optional `viewBox` attribute, an
optional `<title>` text, and the inner graphical content. Distinct byte
strings that agree on these modelled aspects are identified. -/
inductive Markup where
  | malformed (raw : String)
  | wellFormed (viewBox : Option String) (title : Option String) (content : String)
deriving DecidableEq

/-- Modelled from the spec: `lib/SvgDocument` (not in the sources) — view box
string, title string, and the renderable inner markup, each defaulting to the
empty string when absent. -/
structure SvgDocument where
  viewBox : String
  title : String
  content : String
deriving DecidableEq

/-- Modelled from the spec: `SvgDocument.parse` — extracts `viewBox` and
`<title>` if present, both defaulting to the empty string; fails only on
structurally invalid markup. -/
def SvgDocument.parse : Markup → Except SpriteError SvgDocument
  | .malformed _ => .error .parseError
  | .wellFormed vb t c => .ok { viewBox := vb.getD "", title := t.getD "", content := c }

def SvgDocument.getViewBox (d : SvgDocument) : String := d.viewBox

def SvgDocument.getTitle (d : SvgDocument) : String := d.title

/-- Modelled from the spec: `lib/Icon` (not in the sources) — source path
(stable identity), assigned symbol id, and the parsed document. The owning
Sprite is a non-owning back-reference in the original; here the sprite is
passed explicitly where it is needed. -/
structure Icon where
  sourcePath : String
  symbolId : String
  document : SvgDocument
deriving DecidableEq

/-- Modelled from the spec: `lib/Sprite` (not in the sources) — output name,
the ordered collection of icons keyed by source path, and the resource-path
pair recorded for the cache-bust comparison (`originalResourcePath` is the
path recorded by the first URL-producing query, `resourcePath` the one of the
current query). -/
structure Sprite where
  name : String
  icons : List Icon
  originalResourcePath : Option String
  resourcePath : Option String
deriving DecidableEq

def Sprite.empty (name : String) : Sprite :=
  { name := name, icons := [], originalResourcePath := none, resourcePath := none }

/-- Modelled from the spec: `Sprite.addIcon(sourcePath, symbolId, markup)`.
Parse the markup (rejecting the whole call on failure), report a naming
conflict when the symbol id is already taken by an icon with a different
source path, then either replace the icon registered under the same source
path in place or append a new icon at the end of the ordered collection. -/
def Sprite.addIcon (s : Sprite) (sourcePath symbolId : String) (markup : Markup) :
    Except SpriteError (Sprite × Icon) :=
  match SvgDocument.parse markup with
  | .error e => .error e
  | .ok doc =>
    if s.icons.any (fun i => i.symbolId == symbolId && i.sourcePath != sourcePath) then
      .error .namingConflict
    else if s.icons.any (fun i => i.sourcePath == sourcePath) then
      .ok ({ s with icons := s.icons.map (fun i =>
              if i.sourcePath == sourcePath then
                { sourcePath := sourcePath, symbolId := symbolId, document := doc }
              else i) },
           { sourcePath := sourcePath, symbolId := symbolId, document := doc })
    else
      .ok ({ s with icons := s.icons ++ [{ sourcePath := sourcePath, symbolId := symbolId, document := doc }] },
           { sourcePath := sourcePath, symbolId := symbolId, document := doc })

/-- Modelled from the spec: one icon's content rendered as a named symbol
element (id = the icon's symbol id, content = the icon's inner markup). -/
def renderSymbol (i : Icon) : String :=
  "<symbol id=\"" ++ i.symbolId ++ "\">" ++ i.document.content ++ "</symbol>"

def svgOpen : String := "<svg xmlns=\"http://www.w3.org/2000/svg\">"

def svgClose : String := "</svg>"

/-- Modelled from the spec: `Sprite.getComposedDocument` — deterministic
concatenation, in registration order, of every icon wrapped as a symbol
element, inside an `<svg>` wrapper that imposes no global view box. -/
def Sprite.getComposedDocument (s : Sprite) : String :=
  svgOpen ++ String.join (s.icons.map renderSymbol) ++ svgClose

/-- Modelled from the spec: the recording performed by a URL-producing query
site — `resourcePath` always becomes the current caller's path, while
`originalResourcePath` keeps the first path ever recorded. -/
def Sprite.recordResourcePath (s : Sprite) (p : String) : Sprite :=
  { s with
    resourcePath := some p,
    originalResourcePath :=
      match s.originalResourcePath with
      | none => some p
      | some q => some q }

/-- Modelled from the spec: `Icon.getUrlToSymbol(cacheBust)` — the sprite
path plus a `#symbolId` fragment; with `cacheBust` a query-like marker
derived from the symbol id is inserted before the fragment
(`img/sprite.svg?icon-abcd#icon-abcd`, the pattern documented in
`src/index.js`). `spritePath` stands for the owning sprite's path, reached
through the back-reference in the original. -/
def Icon.getUrlToSymbol (spritePath : String) (i : Icon) (cacheBust : Bool) : String :=
  if cacheBust then spritePath ++ "?" ++ i.symbolId ++ "#" ++ i.symbolId
  else spritePath ++ "#" ++ i.symbolId

/-- Modelled from the spec: `Icon.getUrlToView(cacheBust)` — same
construction as `getUrlToSymbol`; the distinction is contractual for the
consumer, not structural. -/
def Icon.getUrlToView (spritePath : String) (i : Icon) (cacheBust : Bool) : String :=
  if cacheBust then spritePath ++ "?" ++ i.symbolId ++ "#" ++ i.symbolId
  else spritePath ++ "#" ++ i.symbolId

/-- Modelled from the spec: the process-wide table of sprites keyed by output
name (`lib/SvgStorePlugin`, not in the sources). -/
abbrev Registry := List (String × Sprite)

/-- Modelled from the spec: `SvgStorePlugin.getSprite(name)` — return the
existing sprite for the name, or create and store a new empty sprite on
first call (insert-if-absent). -/
def SvgStorePlugin.getSprite (r : Registry) (name : String) : Registry × Sprite :=
  match r.find? (fun p => p.1 == name) with
  | some p => (r, p.2)
  | none => (r ++ [(name, Sprite.empty name)], Sprite.empty name)

/-- Write the mutated sprite back under its name (the original mutates the
stored object in place). -/
def updateSprite (r : Registry) (name : String) (s : Sprite) : Registry :=
  r.map (fun p => if p.1 == name then (name, s) else p)

/-- The icon list stored for a name, empty when the name is absent. -/
def spriteIcons (r : Registry) (name : String) : List Icon :=
  match r.find? (fun p => p.1 == name) with
  | some p => p.2.icons
  | none => []

/-- Registry well-formedness: every stored sprite carries its key as its
name, and there is at most one entry per name. -/
def RegistryWF (r : Registry) : Prop :=
  (∀ p ∈ r, p.2.name = p.1) ∧ (r.map Prod.fst).Nodup

/-- Modelled from the spec: the external naming utility
(`loaderUtils.interpolateName`). A template is a sequence of segments:
literal text, the name placeholder (replaced by the source file's basename
without extension), or a hash placeholder of a given length (replaced by a
truncation of the content hash supplied by the external hashing utility).
The default template `icon-[name]-[hash:5]` is `defaultIconName` below. -/
inductive TemplateSeg where
  | lit (s : String)
  | srcName
  | hash (len : Nat)
deriving DecidableEq

abbrev Template := List TemplateSeg

/-- Characters of the last path component, accumulated left to right. -/
def basenameAux : List Char → List Char → List Char
  | [], acc => acc
  | c :: rest, acc => if c = '/' then basenameAux rest [] else basenameAux rest (acc ++ [c])

/-- Basename of a path without its extension (the `[name]` substitution). -/
def basename (p : String) : String :=
  String.mk ((basenameAux p.data []).takeWhile (fun c => c ≠ '.'))

/-- The string substituted for a `[hash:n]` placeholder: the content hash
truncated to `n` characters. -/
def hashComponent (hashFn : Markup → String) (len : Nat) (content : Markup) : String :=
  String.mk ((hashFn content).data.take len)

/-- Modelled from the spec: interpolate a name template against a resource
path and optimized content. -/
def interpolateName (hashFn : Markup → String) (resourcePath : String)
    (tmpl : Template) (content : Markup) : String :=
  String.join (tmpl.map (fun seg =>
    match seg with
    | .lit s => s
    | .srcName => basename resourcePath
    | .hash n => hashComponent hashFn n content))

/-- Translated from `src/index.js` lines 14-28: the default values for the
loader query. The `svgoOptions` entry configures the external optimizer and
is out of the modelled scope. -/
structure QueryValues where
  name : String
  iconName : Template
deriving DecidableEq

def DEFAULT_QUERY_VALUES : QueryValues :=
  { name := "img/sprite.svg",
    iconName := [.lit "icon-", .srcName, .lit "-", .hash 5] }

/-- The options object handed to the loader for one invocation; `none` means
the corresponding property is absent. -/
structure LoaderOptions where
  name : Option String
  iconName : Option Template
deriving DecidableEq

/-- Translated from `src/index.js` line 43:
`Object.assign({}, DEFAULT_QUERY_VALUES, loaderUtils.getOptions(this))` —
a property present in the options overrides the default, an absent property
falls back to it. -/
def mergeQuery (opts : LoaderOptions) : QueryValues :=
  { name := opts.name.getD DEFAULT_QUERY_VALUES.name,
    iconName := opts.iconName.getD DEFAULT_QUERY_VALUES.iconName }

/-- Translated from `src/index.js` line 61: the symbol id passed to
`addIcon` is the icon-name template interpolated against the OPTIMIZED
content (`interpolateName(this, query.iconName, \x7b content \x7d)` runs on the
output of the `imagemin` promise, not on the raw input bytes). -/
def loaderSymbolId (hashFn : Markup → String) (optimize : String → Markup)
    (resourcePath : String) (opts : LoaderOptions) (content : String) : String :=
  interpolateName hashFn resourcePath (mergeQuery opts).iconName (optimize content)

/-- The semantic content of the module body emitted by the loader
(`src/index.js` lines 77-98): the initial symbol/view URLs, the cache-busted
pair when the dev-and-same-path block is emitted, and the document
metadata. -/
structure EmittedModule where
  symbolUrl : String
  viewUrl : String
  bustedUrls : Option (String × String)
  viewBox : String
  title : String
deriving DecidableEq

/-- Runtime meaning of the emitted module (`src/index.js` lines 81-88): the
busted symbol URL replaces the initial one only when the busted block was
emitted and a live, fully loaded document exists
(`typeof document !== 'undefined' && document.readyState === 'complete'`). -/
def EmittedModule.finalSymbolUrl (m : EmittedModule) (documentReady : Bool) : String :=
  match m.bustedUrls with
  | some u => if documentReady then u.1 else m.symbolUrl
  | none => m.symbolUrl

/-- Runtime meaning of the emitted view URL, as `finalSymbolUrl`. -/
def EmittedModule.finalViewUrl (m : EmittedModule) (documentReady : Bool) : String :=
  match m.bustedUrls with
  | some u => if documentReady then u.2 else m.viewUrl
  | none => m.viewUrl

/-- Translated from `src/index.js` lines 36-105 (one loader invocation):
merge the query with the defaults, fetch the sprite for the configured name,
optimize the content (the optimizer and the hash are the external
collaborators, passed as functions), build the icon name from the optimized
content, register the icon, and assemble the emitted module; the busted URL
block is emitted only outside production and only when the sprite's
resource-path comparison succeeds; a registration error is surfaced through
the callback instead (`.catch` at lines 102-104). -/
def loaderRun (optimize : String → Markup) (hashFn : Markup → String)
    (nodeEnv : String) (r : Registry) (resourcePath : String)
    (opts : LoaderOptions) (content : String) :
    Registry × Except SpriteError EmittedModule :=
  let query := mergeQuery opts
  let rs := SvgStorePlugin.getSprite r query.name
  let optimized := optimize content
  let iconName := loaderSymbolId hashFn optimize resourcePath opts content
  match rs.2.addIcon resourcePath iconName optimized with
  | .error e => (rs.1, .error e)
  | .ok si =>
    let sprite := Sprite.recordResourcePath si.1 resourcePath
    let icon := si.2
    let hasSamePath := sprite.originalResourcePath == sprite.resourcePath
    let bust := nodeEnv != "production" && hasSamePath
    let m : EmittedModule :=
      { symbolUrl := Icon.getUrlToSymbol sprite.name icon false,
        viewUrl := Icon.getUrlToView sprite.name icon false,
        bustedUrls :=
          if bust then
            some (Icon.getUrlToSymbol sprite.name icon true,
                  Icon.getUrlToView sprite.name icon true)
          else none,
        viewBox := icon.document.getViewBox,
        title := icon.document.getTitle }
    (updateSprite rs.1 query.name sprite, .ok m)

/-! ## Registry lemmas -/

theorem getSprite_idem (r : Registry) (n : String) :
    SvgStorePlugin.getSprite (SvgStorePlugin.getSprite r n).1 n = SvgStorePlugin.getSprite r n := by
  unfold SvgStorePlugin.getSprite
  cases h : r.find? (fun p => p.1 == n) with
  | some p => simp [h]
  | none => simp [h, List.find?_append, List.find?_cons]

theorem getSprite_name (r : Registry) (n : String) (hwf : RegistryWF r) :
    (SvgStorePlugin.getSprite r n).2.name = n := by
  unfold SvgStorePlugin.getSprite
  cases h : r.find? (fun p => p.1 == n) with
  | some p =>
    have hp : p.1 = n := by simpa using List.find?_some h
    have hmem : p ∈ r := List.mem_of_find?_eq_some h
    simpa [hp] using hwf.1 p hmem
  | none => rfl

theorem getSprite_wf (r : Registry) (n : String) (hwf : RegistryWF r) :
    RegistryWF (SvgStorePlugin.getSprite r n).1 := by
  unfold SvgStorePlugin.getSprite
  cases h : r.find? (fun p => p.1 == n) with
  | some p => simpa using hwf
  | none =>
    refine ⟨?_, ?_⟩
    · intro p hp
      rcases List.mem_append.mp hp with h1 | h2
      · exact hwf.1 p h1
      · simp only [List.mem_singleton] at h2
        subst h2
        rfl
    · rw [List.map_append, List.nodup_append]
      refine ⟨hwf.2, by simp, ?_⟩
      intro a ha hb
      simp only [List.map_cons, List.map_nil, List.mem_singleton] at hb
      subst hb
      rcases List.mem_map.mp ha with ⟨q, hq, hfst⟩
      have hq' := List.find?_eq_none.mp h q hq
      simp only [Bool.not_eq_true, beq_eq_false_iff_ne] at hq'
      exact hq' hfst

theorem getSprite_present (r : Registry) (n : String) :
    ((SvgStorePlugin.getSprite r n).1.find? (fun p => p.1 == n)).isSome = true := by
  unfold SvgStorePlugin.getSprite
  cases h : r.find? (fun p => p.1 == n) with
  | some p => simp [h]
  | none => simp [h, List.find?_append, List.find?_cons]

theorem updateSprite_find (r : Registry) (n : String) (s : Sprite)
    (h : (r.find? (fun p => p.1 == n)).isSome = true) :
    (updateSprite r n s).find? (fun p => p.1 == n) = some (n, s) := by
  induction r with
  | nil => simp at h
  | cons a t ih =>
    unfold updateSprite
    rw [List.map_cons, List.find?_cons]
    by_cases ha : (a.1 == n) = true
    · rw [if_pos ha]
      simp only [beq_self_eq_true]
    · rw [if_neg ha]
      rw [List.find?_cons] at h
      have ha' : (a.1 == n) = false := by simpa using ha
      simp only [ha'] at h ⊢
      exact ih h

theorem spriteIcons_getSprite (r : Registry) (n m : String) :
    spriteIcons (SvgStorePlugin.getSprite r m).1 n = spriteIcons r n := by
  unfold SvgStorePlugin.getSprite spriteIcons
  cases h : r.find? (fun p => p.1 == m) with
  | some p => simp
  | none =>
    simp only [List.find?_append]
    cases h2 : r.find? (fun p => p.1 == n) with
    | some q => simp
    | none =>
      simp only [Option.none_or]
      rw [List.find?_cons]
      by_cases hmn : (m == n) = true
      · simp [hmn, Sprite.empty]
      · have hmn' : (m == n) = false := by simpa using hmn
        simp [hmn']

/-- C2: for every well-formed registry, `getSprite` called twice with the same
name returns the same sprite and leaves the registry unchanged; for two
distinct names it returns distinct sprites; and the one-sprite-per-name
invariant (each sprite stored under its own name, no duplicate names) is
preserved. -/
theorem getSprite_unique (r : Registry) (n₁ n₂ : String)
    (hwf : RegistryWF r) (hne : n₁ ≠ n₂) :
    SvgStorePlugin.getSprite (SvgStorePlugin.getSprite r n₁).1 n₁ = SvgStorePlugin.getSprite r n₁
    ∧ (SvgStorePlugin.getSprite (SvgStorePlugin.getSprite r n₁).1 n₂).2 ≠ (SvgStorePlugin.getSprite r n₁).2
    ∧ RegistryWF (SvgStorePlugin.getSprite r n₁).1 := by
  refine ⟨getSprite_idem r n₁, ?_, getSprite_wf r n₁ hwf⟩
  intro heq
  have h1 : (SvgStorePlugin.getSprite r n₁).2.name = n₁ := getSprite_name r n₁ hwf
  have h2 : (SvgStorePlugin.getSprite (SvgStorePlugin.getSprite r n₁).1 n₂).2.name = n₂ :=
    getSprite_name _ n₂ (getSprite_wf r n₁ hwf)
  rw [heq, h1] at h2
  exact hne h2

theorem getSprite_unique_witness :
    SvgStorePlugin.getSprite (SvgStorePlugin.getSprite [] "a").1 "a" = SvgStorePlugin.getSprite [] "a"
    ∧ (SvgStorePlugin.getSprite (SvgStorePlugin.getSprite [] "a").1 "b").2 ≠ (SvgStorePlugin.getSprite [] "a").2 :=
  ⟨(getSprite_unique [] "a" "b" ⟨fun p hp => absurd hp (List.not_mem_nil p), List.nodup_nil⟩ (by decide)).1,
   (getSprite_unique [] "a" "b" ⟨fun p hp => absurd hp (List.not_mem_nil p), List.nodup_nil⟩ (by decide)).2.1⟩

/-- C7: `getUrlToSymbol true` and `getUrlToSymbol false` share a byte-identical
base path (the sprite path) and fragment (the hash sign followed by the symbol
id); the cache-busted form differs only by the query-like marker derived from
the symbol id, inserted between the base and the fragment. -/
theorem getUrlToSymbol_cacheBust (spritePath : String) (i : Icon) :
    Icon.getUrlToSymbol spritePath i false = spritePath ++ ("#" ++ i.symbolId)
    ∧ Icon.getUrlToSymbol spritePath i true = spritePath ++ (("?" ++ i.symbolId) ++ ("#" ++ i.symbolId)) := by
  constructor <;> simp [Icon.getUrlToSymbol, String.append_assoc]

/-- C8: parsing well-formed markup with an absent `viewBox` attribute or an
absent `title` element succeeds, and the corresponding accessor of the parsed
document returns the empty string. -/
theorem parse_absent_defaults (vb t : Option String) (c : String) :
    (SvgDocument.parse (Markup.wellFormed none t c)).map SvgDocument.getViewBox = Except.ok ""
    ∧ (SvgDocument.parse (Markup.wellFormed vb none c)).map SvgDocument.getTitle = Except.ok ""
    ∧ SvgDocument.parse (Markup.wellFormed none none c)
        = Except.ok { viewBox := "", title := "", content := c } :=
  ⟨rfl, rfl, rfl⟩

/-! ## addIcon lemmas -/

theorem addIcon_fresh (s : Sprite) (p id : String) (m : Markup) (d : SvgDocument)
    (s' : Sprite) (i : Icon)
    (hparse : SvgDocument.parse m = Except.ok d)
    (hfresh : s.icons.any (fun j => j.sourcePath == p) = false)
    (h : s.addIcon p id m = Except.ok (s', i)) :
    s' = { s with icons := s.icons ++ [{ sourcePath := p, symbolId := id, document := d }] }
    ∧ i = { sourcePath := p, symbolId := id, document := d } := by
  unfold Sprite.addIcon at h
  split at h
  · rename_i e heq
    rw [hparse] at heq
    exact absurd heq (by simp)
  · rename_i doc heq
    rw [hparse] at heq
    injection heq with h'
    subst h'
    split at h
    · exact absurd h (by simp)
    · split at h
      · rename_i hc2
        rw [hfresh] at hc2
        exact absurd hc2 (by simp)
      · simp only [Except.ok.injEq, Prod.mk.injEq] at h
        exact ⟨h.1.symm, h.2.symm⟩

theorem addIcon_replace (s : Sprite) (p id : String) (m : Markup) (d : SvgDocument)
    (s' : Sprite) (i : Icon)
    (hparse : SvgDocument.parse m = Except.ok d)
    (hreg : s.icons.any (fun j => j.sourcePath == p) = true)
    (h : s.addIcon p id m = Except.ok (s', i)) :
    s' = { s with icons := s.icons.map (fun j =>
            if j.sourcePath == p then { sourcePath := p, symbolId := id, document := d } else j) }
    ∧ i = { sourcePath := p, symbolId := id, document := d } := by
  unfold Sprite.addIcon at h
  split at h
  · rename_i e heq
    rw [hparse] at heq
    exact absurd heq (by simp)
  · rename_i doc heq
    rw [hparse] at heq
    injection heq with h'
    subst h'
    split at h
    · exact absurd h (by simp)
    · simp only [Except.ok.injEq, Prod.mk.injEq] at h
      exact ⟨h.1.symm, h.2.symm⟩

/-- C1: re-registering an already-registered source path replaces the stored
icon's document and symbol id in place: the resulting icon list is a pointwise
map of the old one (so the count and every ordinal position are unchanged, and
the entry for the path now carries only the second registration's parsed
document and symbol id), and the composed document is the composition of that
replaced list. -/
theorem addIcon_replace_in_place (s : Sprite) (p id : String) (m : Markup) (d : SvgDocument)
    (s' : Sprite) (i₂ : Icon)
    (hparse : SvgDocument.parse m = Except.ok d)
    (hreg : s.icons.any (fun j => j.sourcePath == p) = true)
    (h : s.addIcon p id m = Except.ok (s', i₂)) :
    s'.icons = s.icons.map (fun j =>
      if j.sourcePath == p then { sourcePath := p, symbolId := id, document := d } else j)
    ∧ s'.icons.length = s.icons.length
    ∧ i₂ = { sourcePath := p, symbolId := id, document := d }
    ∧ s'.getComposedDocument
        = svgOpen ++ String.join ((s.icons.map (fun j =>
            if j.sourcePath == p then ({ sourcePath := p, symbolId := id, document := d } : Icon) else j)).map renderSymbol) ++ svgClose := by
  obtain ⟨hs, hi⟩ := addIcon_replace s p id m d s' i₂ hparse hreg h
  subst hs
  exact ⟨rfl, by simp, hi, rfl⟩

def wDoc1 : SvgDocument := { viewBox := "", title := "", content := "<c1/>" }

def wIcon1 : Icon := { sourcePath := "/a.svg", symbolId := "i1", document := wDoc1 }

def wSprite1 : Sprite := { name := "s", icons := [wIcon1], originalResourcePath := none, resourcePath := none }

def wDoc2 : SvgDocument := { viewBox := "", title := "", content := "<c2/>" }

def wIcon2 : Icon := { sourcePath := "/a.svg", symbolId := "i2", document := wDoc2 }

def wSprite2 : Sprite := { name := "s", icons := [wIcon2], originalResourcePath := none, resourcePath := none }

theorem addIcon_replace_in_place_witness :
    wSprite2.icons = wSprite1.icons.map (fun j =>
      if j.sourcePath == "/a.svg" then { sourcePath := "/a.svg", symbolId := "i2", document := wDoc2 } else j)
    ∧ wSprite2.icons.length = wSprite1.icons.length
    ∧ wIcon2 = { sourcePath := "/a.svg", symbolId := "i2", document := wDoc2 }
    ∧ wSprite2.getComposedDocument
        = svgOpen ++ String.join ((wSprite1.icons.map (fun j =>
            if j.sourcePath == "/a.svg" then ({ sourcePath := "/a.svg", symbolId := "i2", document := wDoc2 } : Icon) else j)).map renderSymbol) ++ svgClose :=
  addIcon_replace_in_place wSprite1 "/a.svg" "i2" (Markup.wellFormed none none "<c2/>")
    wDoc2 wSprite2 wIcon2 rfl rfl rfl

/-- C4: calling `addIcon` with a symbol id already assigned to an icon that
has a different source path in the same sprite fails with the NamingConflict
error instead of silently keeping the first writer. -/
theorem addIcon_naming_conflict (s : Sprite) (p id : String) (m : Markup) (d : SvgDocument)
    (hparse : SvgDocument.parse m = Except.ok d)
    (hconf : s.icons.any (fun j => j.symbolId == id && j.sourcePath != p) = true) :
    s.addIcon p id m = Except.error SpriteError.namingConflict := by
  unfold Sprite.addIcon
  rw [hparse]
  simp only [hconf, if_true]

def wConfSprite : Sprite :=
  { name := "s",
    icons := [{ sourcePath := "/a.svg", symbolId := "dup", document := wDoc1 }],
    originalResourcePath := none, resourcePath := none }

theorem addIcon_naming_conflict_witness :
    SvgDocument.parse (Markup.wellFormed none none "<b/>")
      = Except.ok { viewBox := "", title := "", content := "<b/>" }
    ∧ wConfSprite.icons.any (fun j => j.symbolId == "dup" && j.sourcePath != "/b.svg") = true
    ∧ wConfSprite.addIcon "/b.svg" "dup" (Markup.wellFormed none none "<b/>")
        = Except.error SpriteError.namingConflict :=
  ⟨rfl, rfl,
   addIcon_naming_conflict wConfSprite "/b.svg" "dup" (Markup.wellFormed none none "<b/>")
     { viewBox := "", title := "", content := "<b/>" } rfl rfl⟩

/-- C3: a sequence of `addIcon` calls with distinct, previously unregistered
source paths appends the icons in call order, and the composed document is
the concatenation, in exactly that registration order, of each icon's content
wrapped as a symbol element carrying that icon's symbol id. -/
theorem composed_document_order (s : Sprite)
    (pa pb pc ida idb idc : String) (ma mb mc : Markup)
    (da db dc : SvgDocument) (s₁ s₂ s₃ : Sprite) (ia ib ic : Icon)
    (hpa : SvgDocument.parse ma = Except.ok da)
    (hpb : SvgDocument.parse mb = Except.ok db)
    (hpc : SvgDocument.parse mc = Except.ok dc)
    (hfa : s.icons.any (fun j => j.sourcePath == pa) = false)
    (hfb : s.icons.any (fun j => j.sourcePath == pb) = false)
    (hfc : s.icons.any (fun j => j.sourcePath == pc) = false)
    (hab : pa ≠ pb) (hac : pa ≠ pc) (hbc : pb ≠ pc)
    (h₁ : s.addIcon pa ida ma = Except.ok (s₁, ia))
    (h₂ : s₁.addIcon pb idb mb = Except.ok (s₂, ib))
    (h₃ : s₂.addIcon pc idc mc = Except.ok (s₃, ic)) :
    s₃.icons = s.icons ++
      ([{ sourcePath := pa, symbolId := ida, document := da },
        { sourcePath := pb, symbolId := idb, document := db },
        { sourcePath := pc, symbolId := idc, document := dc }] : List Icon)
    ∧ s₃.getComposedDocument
        = svgOpen ++ String.join ((s.icons ++
            ([{ sourcePath := pa, symbolId := ida, document := da },
              { sourcePath := pb, symbolId := idb, document := db },
              { sourcePath := pc, symbolId := idc, document := dc }] : List Icon)).map renderSymbol) ++ svgClose := by
  obtain ⟨hs₁, hia⟩ := addIcon_fresh s pa ida ma da s₁ ia hpa hfa h₁
  subst hs₁
  have hab' : (pa == pb) = false := by simpa using hab
  have hac' : (pa == pc) = false := by simpa using hac
  have hbc' : (pb == pc) = false := by simpa using hbc
  have hfb' : (({ s with icons := s.icons ++ [{ sourcePath := pa, symbolId := ida, document := da }] } : Sprite)).icons.any (fun j => j.sourcePath == pb) = false := by
    simp [List.any_append, hfb, hab']
  obtain ⟨hs₂, hib⟩ := addIcon_fresh _ pb idb mb db s₂ ib hpb hfb' h₂
  subst hs₂
  have hfc' : (({ s with icons := (s.icons ++ [{ sourcePath := pa, symbolId := ida, document := da }]) ++ [{ sourcePath := pb, symbolId := idb, document := db }] } : Sprite)).icons.any (fun j => j.sourcePath == pc) = false := by
    simp [List.any_append, hfc, hac', hbc']
  obtain ⟨hs₃, hic⟩ := addIcon_fresh _ pc idc mc dc s₃ ic hpc hfc' h₃
  subst hs₃
  refine ⟨?_, ?_⟩
  · simp [List.append_assoc]
  · simp [Sprite.getComposedDocument, List.append_assoc]

def w3A : Icon :=
  { sourcePath := "/a.svg", symbolId := "ia", document := { viewBox := "", title := "", content := "<a/>" } }

def w3B : Icon :=
  { sourcePath := "/b.svg", symbolId := "ib", document := { viewBox := "", title := "", content := "<b/>" } }

def w3C : Icon :=
  { sourcePath := "/c.svg", symbolId := "ic", document := { viewBox := "", title := "", content := "<c/>" } }

def w3s1 : Sprite := { name := "s", icons := [w3A], originalResourcePath := none, resourcePath := none }

def w3s2 : Sprite := { name := "s", icons := [w3A, w3B], originalResourcePath := none, resourcePath := none }

def w3s3 : Sprite := { name := "s", icons := [w3A, w3B, w3C], originalResourcePath := none, resourcePath := none }

theorem composed_document_order_witness :
    w3s3.icons = (Sprite.empty "s").icons ++ ([w3A, w3B, w3C] : List Icon)
    ∧ w3s3.getComposedDocument
        = svgOpen ++ String.join (((Sprite.empty "s").icons ++ ([w3A, w3B, w3C] : List Icon)).map renderSymbol) ++ svgClose :=
  composed_document_order (Sprite.empty "s") "/a.svg" "/b.svg" "/c.svg" "ia" "ib" "ic"
    (Markup.wellFormed none none "<a/>") (Markup.wellFormed none none "<b/>") (Markup.wellFormed none none "<c/>")
    { viewBox := "", title := "", content := "<a/>" }
    { viewBox := "", title := "", content := "<b/>" }
    { viewBox := "", title := "", content := "<c/>" }
    w3s1 w3s2 w3s3 w3A w3B w3C
    rfl rfl rfl rfl rfl rfl (by decide) (by decide) (by decide) rfl rfl rfl

/-- C5: when the optimized markup reaching `addIcon` is not well-formed, the
loader run surfaces the ParseError through the callback and no sprite's icon
collection is changed by the failed call: the icons stored under every name
are the same before and after the run. -/
theorem addIcon_parse_atomic (optimize : String → Markup) (hashFn : Markup → String)
    (nodeEnv : String) (r : Registry) (resourcePath : String) (opts : LoaderOptions)
    (content raw : String)
    (hmal : optimize content = Markup.malformed raw) :
    (loaderRun optimize hashFn nodeEnv r resourcePath opts content).2 = Except.error SpriteError.parseError
    ∧ ∀ n, spriteIcons (loaderRun optimize hashFn nodeEnv r resourcePath opts content).1 n = spriteIcons r n := by
  have hrun : loaderRun optimize hashFn nodeEnv r resourcePath opts content
      = ((SvgStorePlugin.getSprite r (mergeQuery opts).name).1, Except.error SpriteError.parseError) := by
    simp only [loaderRun]
    rw [hmal]
    rfl
  refine ⟨by rw [hrun], fun n => ?_⟩
  rw [hrun]
  exact spriteIcons_getSprite r n (mergeQuery opts).name

def sampleHash : Markup → String := fun _ => "abcdefgh"

def badOptimize : String → Markup := fun s => Markup.malformed s

theorem addIcon_parse_atomic_witness :
    (loaderRun badOptimize sampleHash "development" [] "/a.svg" { name := none, iconName := none } "raw").2
      = Except.error SpriteError.parseError
    ∧ spriteIcons (loaderRun badOptimize sampleHash "development" [] "/a.svg" { name := none, iconName := none } "raw").1 "img/sprite.svg"
        = spriteIcons [] "img/sprite.svg" :=
  ⟨(addIcon_parse_atomic badOptimize sampleHash "development" [] "/a.svg" { name := none, iconName := none } "raw" "raw" rfl).1,
   (addIcon_parse_atomic badOptimize sampleHash "development" [] "/a.svg" { name := none, iconName := none } "raw" "raw" rfl).2 "img/sprite.svg"⟩

theorem finalSymbolUrl_not_ready (m : EmittedModule) :
    m.finalSymbolUrl false = m.symbolUrl := by
  unfold EmittedModule.finalSymbolUrl
  cases m.bustedUrls <;> simp

theorem finalViewUrl_not_ready (m : EmittedModule) :
    m.finalViewUrl false = m.viewUrl := by
  unfold EmittedModule.finalViewUrl
  cases m.bustedUrls <;> simp

/-- C6: in the module emitted by a successful loader run, the initial symbol
and view URLs are computed with cacheBust = false; the cache-busted pair is
present exactly when the run is outside production and the sprite's
originally recorded resource path equals the current call's resource path;
and at runtime the busted URLs take effect only once a live, fully loaded
document exists — without one the initial URLs stand. -/
theorem loader_cacheBust_policy
    (optimize : String → Markup) (hashFn : Markup → String) (nodeEnv : String)
    (r r₁ : Registry) (resourcePath content : String) (opts : LoaderOptions)
    (sprite sprite' : Sprite) (icon : Icon) (m : EmittedModule)
    (hs : SvgStorePlugin.getSprite r (mergeQuery opts).name = (r₁, sprite))
    (hadd : sprite.addIcon resourcePath (loaderSymbolId hashFn optimize resourcePath opts content) (optimize content) = Except.ok (sprite', icon))
    (hm : (loaderRun optimize hashFn nodeEnv r resourcePath opts content).2 = Except.ok m) :
    m.symbolUrl = Icon.getUrlToSymbol (Sprite.recordResourcePath sprite' resourcePath).name icon false
    ∧ m.viewUrl = Icon.getUrlToView (Sprite.recordResourcePath sprite' resourcePath).name icon false
    ∧ m.bustedUrls =
        (if nodeEnv != "production" && ((Sprite.recordResourcePath sprite' resourcePath).originalResourcePath == some resourcePath) then
          some (Icon.getUrlToSymbol (Sprite.recordResourcePath sprite' resourcePath).name icon true,
                Icon.getUrlToView (Sprite.recordResourcePath sprite' resourcePath).name icon true)
        else none)
    ∧ m.finalSymbolUrl false = m.symbolUrl
    ∧ m.finalViewUrl false = m.viewUrl := by
  simp only [loaderRun] at hm
  rw [hs] at hm
  simp only at hm
  rw [hadd] at hm
  simp only [Except.ok.injEq] at hm
  subst hm
  refine ⟨rfl, rfl, rfl, finalSymbolUrl_not_ready _, finalViewUrl_not_ready _⟩

def sampleOptimize : String → Markup := fun _ => Markup.wellFormed none none "<path/>"

def w6r1 : Registry := [("img/sprite.svg", Sprite.empty "img/sprite.svg")]

def w6Icon : Icon :=
  { sourcePath := "/a.svg", symbolId := "icon-a-abcde",
    document := { viewBox := "", title := "", content := "<path/>" } }

def w6Sprite : Sprite :=
  { name := "img/sprite.svg", icons := [w6Icon], originalResourcePath := none, resourcePath := none }

def w6Module : EmittedModule :=
  { symbolUrl := "img/sprite.svg#icon-a-abcde",
    viewUrl := "img/sprite.svg#icon-a-abcde",
    bustedUrls := some ("img/sprite.svg?icon-a-abcde#icon-a-abcde", "img/sprite.svg?icon-a-abcde#icon-a-abcde"),
    viewBox := "", title := "" }

theorem loader_cacheBust_policy_witness :
    w6Module.symbolUrl = Icon.getUrlToSymbol (Sprite.recordResourcePath w6Sprite "/a.svg").name w6Icon false
    ∧ w6Module.viewUrl = Icon.getUrlToView (Sprite.recordResourcePath w6Sprite "/a.svg").name w6Icon false
    ∧ w6Module.bustedUrls =
        (if "development" != "production" && ((Sprite.recordResourcePath w6Sprite "/a.svg").originalResourcePath == some "/a.svg") then
          some (Icon.getUrlToSymbol (Sprite.recordResourcePath w6Sprite "/a.svg").name w6Icon true,
                Icon.getUrlToView (Sprite.recordResourcePath w6Sprite "/a.svg").name w6Icon true)
        else none)
    ∧ w6Module.finalSymbolUrl false = w6Module.symbolUrl
    ∧ w6Module.finalViewUrl false = w6Module.viewUrl :=
  loader_cacheBust_policy sampleOptimize sampleHash "development" [] w6r1 "/a.svg" "raw"
    { name := none, iconName := none } (Sprite.empty "img/sprite.svg") w6Sprite w6Icon w6Module
    rfl rfl rfl

/-- C9 counterexample: with loader options that set the sprite name to the
empty string, the merged query's name is empty, the run reaches the core (a
sprite stored under the empty name appears in the registry, so `getSprite`
was invoked with the empty name), and the run completes successfully — no
ConfigurationError is surfaced at the boundary; indeed no such error exists
in the loader. This refutes the claim that `getSprite`/`addIcon` are never
invoked with an empty name. -/
theorem loader_empty_name_reaches_core :
    (mergeQuery { name := some "", iconName := none }).name = ""
    ∧ ((loaderRun sampleOptimize sampleHash "development" [] "/a.svg" { name := some "", iconName := none } "raw").1.find? (fun p => p.1 == "")).isSome = true
    ∧ (loaderRun sampleOptimize sampleHash "development" [] "/a.svg" { name := some "", iconName := none } "raw").2.isOk = true :=
  ⟨rfl, rfl, rfl⟩

/-- C9 (amended): the loader substitutes the defaults only for options that
are absent — an omitted name or icon-name template falls back to
`DEFAULT_QUERY_VALUES` — while an explicitly supplied value, including an
empty one, overrides the default and is passed through to the core
unvalidated; no ConfigurationError is raised at the loader boundary. -/
theorem mergeQuery_defaults (opts : LoaderOptions) :
    (opts.name = none → (mergeQuery opts).name = "img/sprite.svg")
    ∧ (∀ v, opts.name = some v → (mergeQuery opts).name = v)
    ∧ (opts.iconName = none → (mergeQuery opts).iconName = DEFAULT_QUERY_VALUES.iconName)
    ∧ (∀ t, opts.iconName = some t → (mergeQuery opts).iconName = t) := by
  refine ⟨fun h => ?_, fun v h => ?_, fun h => ?_, fun t h => ?_⟩ <;>
    simp [mergeQuery, h, DEFAULT_QUERY_VALUES]

theorem mergeQuery_defaults_witness :
    (mergeQuery { name := none, iconName := none }).name = "img/sprite.svg"
    ∧ (mergeQuery { name := some "", iconName := none }).name = "" :=
  ⟨(mergeQuery_defaults { name := none, iconName := none }).1 rfl,
   (mergeQuery_defaults { name := some "", iconName := none }).2.1 "" rfl⟩

/-- C10: the symbol id handed to `addIcon` by the loader is the icon-name
template interpolated against the optimizer's output, not the raw input
bytes: it factors through `optimize`, so two invocations whose raw inputs
differ but whose optimized outputs coincide receive the same symbol id at
the same call site and, in particular, identical hash components at any
hash-placeholder length even across different source paths. -/
theorem symbolId_from_optimized (hashFn : Markup → String) (optimize : String → Markup)
    (rp : String) (opts : LoaderOptions) (raw₁ raw₂ : String)
    (h : optimize raw₁ = optimize raw₂) :
    loaderSymbolId hashFn optimize rp opts raw₁
      = interpolateName hashFn rp (mergeQuery opts).iconName (optimize raw₁)
    ∧ loaderSymbolId hashFn optimize rp opts raw₁ = loaderSymbolId hashFn optimize rp opts raw₂
    ∧ ∀ n, hashComponent hashFn n (optimize raw₁) = hashComponent hashFn n (optimize raw₂) :=
  ⟨rfl, by unfold loaderSymbolId; rw [h], fun n => by rw [h]⟩

theorem symbolId_from_optimized_witness :
    loaderSymbolId sampleHash sampleOptimize "/a.svg" { name := none, iconName := none } "rawone"
      = interpolateName sampleHash "/a.svg" (mergeQuery { name := none, iconName := none }).iconName (sampleOptimize "rawone")
    ∧ loaderSymbolId sampleHash sampleOptimize "/a.svg" { name := none, iconName := none } "rawone"
        = loaderSymbolId sampleHash sampleOptimize "/a.svg" { name := none, iconName := none } "rawtwo"
    ∧ hashComponent sampleHash 5 (sampleOptimize "rawone") = hashComponent sampleHash 5 (sampleOptimize "rawtwo") :=
  ⟨(symbolId_from_optimized sampleHash sampleOptimize "/a.svg" { name := none, iconName := none } "rawone" "rawtwo" rfl).1,
   (symbolId_from_optimized sampleHash sampleOptimize "/a.svg" { name := none, iconName := none } "rawone" "rawtwo" rfl).2.1,
   (symbolId_from_optimized sampleHash sampleOptimize "/a.svg" { name := none, iconName := none } "rawone" "rawtwo" rfl).2.2 5⟩
